import Mathlib

/-!
Shallow embedding of `api/monitoring/drift_detector.py` (class `DriftDetector`)
and proofs of the spec claims about it.

Modelling conventions:
* Python/NumPy floats are embedded as exact rationals (`ℚ`); the claims under
  study are order/boundedness/aggregation facts that hold exactly over `ℚ`.
* A pandas `DataFrame` is a column-major association list from column name to
  the column's value list; all columns of one frame share the row count.
* A cell value is either a number or a string (`Val`); `NaN` cells are not
  modelled, so `dropna()` is the identity and is omitted.
* Randomness (`np.random.choice(values, 10000, replace=False)`) is modelled by
  an explicit sampler parameter constrained by `SamplerOK` (result has length
  10000 and is a sub-permutation, i.e. drawn without replacement).
* `datetime.now()` timestamps and printed console output are not modelled.
-/

/-- A scalar cell value: a Python number or string. -/
inductive Val where
  | num (q : ℚ)
  | str (s : String)
deriving DecidableEq, Repr

/-- A DataFrame column: the list of cell values. -/
abbrev Column := List Val

/-- A DataFrame: column-major association list (name, values). -/
abbrev Dataset := List (String × Column)

/-- `len(df)`: the shared row count of the columns (0 for an empty frame). -/
def nRows (d : Dataset) : ℕ :=
  match d with
  | [] => 0
  | c :: _ => c.2.length

/-- Digit-string parser used by the `float()` model: all characters must be
decimal digits and the string nonempty. -/
def parseDigits? (s : String) : Option ℕ :=
  if s.isEmpty then none
  else if s.toList.all Char.isDigit then
    some (s.toList.foldl (fun a c => 10 * a + (c.toNat - 48)) 0)
  else none

/-- Mantissa of a Python float literal: `digits`, `digits.digits`, `digits.`
or `.digits` (a lone `.` is rejected). -/
def parseMantissa? (s : String) : Option ℚ :=
  match s.splitOn "." with
  | [w] => (parseDigits? w).map (fun n => (n : ℚ))
  | [w, f] =>
    if w.isEmpty && f.isEmpty then none
    else
      match (if w.isEmpty then some 0 else parseDigits? w),
            (if f.isEmpty then some 0 else parseDigits? f) with
      | some a, some b => some ((a : ℚ) + (b : ℚ) / (10 : ℚ) ^ f.length)
      | _, _ => none
  | _ => none

/-- Optionally signed integer exponent of a float literal. -/
def parseExp? (s : String) : Option ℤ :=
  if s.startsWith "-" then (parseDigits? (s.drop 1)).map (fun n => -(n : ℤ))
  else if s.startsWith "+" then (parseDigits? (s.drop 1)).map (fun n => (n : ℤ))
  else (parseDigits? s).map (fun n => (n : ℤ))

/-- Model of Python `float(s)` on strings: optional surrounding whitespace,
optional sign, decimal mantissa, optional `e`/`E` exponent.  The `inf`,
`infinity` and `nan` literals and underscore digit separators accepted by
CPython are outside the modelled fragment (no claim instance uses them). -/
def pyFloat? (s : String) : Option ℚ :=
  let t := (s.trim).toLower
  let signedBody :=
    if t.startsWith "-" then ((-1 : ℚ), t.drop 1)
    else if t.startsWith "+" then ((1 : ℚ), t.drop 1)
    else ((1 : ℚ), t)
  let res :=
    match signedBody.2.splitOn "e" with
    | [m] => parseMantissa? m
    | [m, ex] =>
      match parseMantissa? m, parseExp? ex with
      | some q, some e => some (q * (10 : ℚ) ^ e)
      | _, _ => none
    | _ => none
  res.map (fun q => signedBody.1 * q)

/-- `np.ndarray.astype(float)` on one cell: numbers pass through, strings go
through the `float()` parser. -/
def coerceFloat? (v : Val) : Option ℚ :=
  match v with
  | .num q => some q
  | .str s => pyFloat? s

/-- `DriftDetector._is_numeric`: `values.astype(float)` succeeds, i.e. every
cell (number or numeric string) coerces to float. -/
def is_numeric (vs : List Val) : Bool :=
  vs.all (fun v => (coerceFloat? v).isSome)

/-- `pd.api.types.is_numeric_dtype` on a column built from raw Python values:
the dtype is numeric exactly when every cell is a number (a column containing
any string has `object` dtype). -/
def is_numeric_dtype (vs : List Val) : Bool :=
  vs.all (fun v => match v with | .num _ => true | .str _ => false)

/-- The `test` tag of a per-feature result dict: `'none'`,
`'kolmogorov_smirnov'` or `'chi_square'`. -/
inductive TestKind where
  | none
  | kolmogorov_smirnov
  | chi_square
deriving DecidableEq, Repr

/-- Per-feature result dict of `_test_feature_drift`.  The embedding records
the fields the spec claims constrain (`test`, `drift_score`); the remaining
real-valued diagnostics of the source dicts (`p_value`, `significant`,
`mean_shift`, `std_shift`, raw statistics) are scipy outputs unconstrained by
every claim and are not modelled. -/
structure FeatureDriftResult where
  test : TestKind
  drift_score : ℚ
deriving DecidableEq, Repr

/-- The `severity` field: `'normal'`, `'warning'` or `'critical'`. -/
inductive Severity where
  | normal
  | warning
  | critical
deriving DecidableEq, Repr

/-- The result dict of a successful `detect_drift` call (`timestamp`
omitted, see header). -/
structure DriftResult where
  n_samples : ℕ
  features : List (String × FeatureDriftResult)
  overall_drift_score : ℚ
  drift_detected : Bool
  severity : Severity
deriving DecidableEq, Repr

/-- One entry of the `stats` dict built by `_compute_statistics`.  `stdSq` is
the sample variance; the source stores its (generally irrational) square root
`pandas.Series.std()`, which no claim constrains. -/
inductive FeatureStats where
  | numeric (mean stdSq minV maxV median q25 q75 : ℚ)
  | categorical (n_unique : ℕ) (top_values : List (Val × ℕ))
deriving DecidableEq, Repr

/-- The mutable state of a `DriftDetector` instance. -/
structure DriftState where
  warning_threshold : ℚ
  critical_threshold : ℚ
  baseline_stats : List (String × FeatureStats)
  baseline_distribution : List (String × Column)
deriving DecidableEq, Repr

/-- Number of elements `≤ t`: the unnormalised empirical CDF. -/
def countLe {α : Type} [LinearOrder α] (xs : List α) (t : α) : ℕ :=
  (xs.filter (fun x => decide (x ≤ t))).length

/-- Empirical CDF of a sample at `t`. -/
def ecdfAt {α : Type} [LinearOrder α] (xs : List α) (t : α) : ℚ :=
  (countLe xs t : ℚ) / (xs.length : ℚ)

/-- Two-sample Kolmogorov-Smirnov statistic as computed by
`scipy.stats.ks_2samp`: the largest absolute difference of the two empirical
CDFs, attained at one of the sample points. -/
def ksStat {α : Type} [LinearOrder α] (xs ys : List α) : ℚ :=
  ((xs ++ ys).map (fun t => |ecdfAt xs t - ecdfAt ys t|)).foldr max 0

/-- The numeric cell payload, if the cell is a number. -/
def numOnly? : Val → Option ℚ
  | .num q => some q
  | .str _ => none

/-- The string cell payload, if the cell is a string. -/
def strOnly? : Val → Option String
  | .num _ => none
  | .str s => some s

/-- `DriftDetector._test_numeric_drift`: `ks_2samp(current, baseline)`.
NumPy sorts and cross-compares the two samples, which succeeds on
homogeneous data — both samples all numbers (numeric KS) or both all strings
(KS over lexicographic string order) — and raises a comparison/conversion
error on mixed numeric/string data, which the source does not catch.
(NumPy's `asarray` stringifies a mixed Python *list*; the embedding treats
every mixed sample as the failing case — no claim instance exercises the
stringified corner.) -/
def test_numeric_drift (current baseline : List Val) :
    Except String FeatureDriftResult :=
  match current.mapM numOnly?, baseline.mapM numOnly? with
  | some cs, some bs =>
    .ok { test := .kolmogorov_smirnov, drift_score := ksStat cs bs }
  | _, _ =>
    match current.mapM strOnly?, baseline.mapM strOnly? with
    | some cs, some bs =>
      .ok { test := .kolmogorov_smirnov, drift_score := ksStat cs bs }
    | _, _ => .error "TypeError: unordered comparison of str and float"

/-- Distinct values in first-occurrence order (`set(...)` iteration order is
irrelevant to every use: the chi-square sum is order-independent and
`value_counts` re-sorts by count). -/
def firstUniques (l : List Val) : List Val :=
  l.foldl (fun acc v => if v ∈ acc then acc else acc ++ [v]) []

/-- `DriftDetector._test_categorical_drift`: frequency tables over the union
of categories, `scipy.stats.chisquare` statistic `Σ (obs-exp)²/exp`, then
`min(chi2/total, 1.0)`.  A category absent from the baseline has expected
count 0 with observed count ≥ 1; NumPy's termwise division then yields `+inf`
and `min(inf/total, 1.0) = 1.0`.  (scipy ≥ 1.10 additionally rejects
frequency vectors with unequal sums; the repository pins no scipy version and
the spec describes the computing behaviour, which is what is modelled.) -/
def test_categorical_drift (current baseline : List Val) : FeatureDriftResult :=
  let cats := firstUniques (current ++ baseline)
  let cf := cats.map (fun c => current.count c)
  let bf := cats.map (fun c => baseline.count c)
  let total : ℚ := ((cf.sum + bf.sum : ℕ) : ℚ)
  if bf.any (fun b => decide (b = 0)) then
    { test := .chi_square, drift_score := 1 }
  else
    let chi2 : ℚ :=
      ((cf.zip bf).map (fun p => ((p.1 : ℚ) - (p.2 : ℚ)) ^ 2 / (p.2 : ℚ))).sum
    { test := .chi_square, drift_score := min (chi2 / total) 1 }

/-- `DriftDetector._test_feature_drift`: look up the baseline sample
(`dict.get(feature, [])`); an empty sample degrades to `'none'`/0.0;
otherwise dispatch on `_is_numeric(current_values)`. -/
def test_feature_drift (baseline_distribution : List (String × Column))
    (current_values : List Val) (feature : String) :
    Except String FeatureDriftResult :=
  let baseline_values := (baseline_distribution.lookup feature).getD []
  if baseline_values.isEmpty then
    .ok { test := .none, drift_score := 0 }
  else if is_numeric current_values then
    test_numeric_drift current_values baseline_values
  else
    .ok (test_categorical_drift current_values baseline_values)

/-- Outcome of a `detect_drift` call: the error-shaped dict returned when no
baseline is loaded, an uncaught exception escaping the call, or the result
dict. -/
inductive DriftOutcome where
  | errorResult (msg : String)
  | raised (msg : String)
  | ok (r : DriftResult)
deriving DecidableEq, Repr

/-- The feature loop of `detect_drift` (lines 118-129): features absent from
the current frame's columns are skipped; each tested feature's result dict is
recorded and its `drift_score` appended; an uncaught per-feature exception
aborts the loop. -/
def driftLoop (bd : List (String × Column)) (current_data : Dataset) :
    List String → Except String (List (String × FeatureDriftResult) × List ℚ)
  | [] => .ok ([], [])
  | f :: fs =>
    match current_data.lookup f with
    | Option.none => driftLoop bd current_data fs
    | some col =>
      match test_feature_drift bd col f with
      | .error m => .error m
      | .ok r =>
        match driftLoop bd current_data fs with
        | .error m => .error m
        | .ok (m, s) => .ok ((f, r) :: m, r.drift_score :: s)

/-- `DriftDetector.detect_drift`: guard on an empty `baseline_stats` (falsy
dict) returning the error dict; default the feature list to the baseline
stats' keys; run the feature loop; `overall = np.mean(scores)` when the score
list is nonempty (else it stays 0.0); classify severity with inclusive `>=`
threshold comparisons, setting `drift_detected` in the warning and critical
branches. -/
def detect_drift (det : DriftState) (current_data : Dataset)
    (features? : Option (List String)) : DriftOutcome :=
  if det.baseline_stats.isEmpty then
    .errorResult "Baseline não carregado. Execute save_baseline() primeiro."
  else
    let features := features?.getD (det.baseline_stats.map Prod.fst)
    match driftLoop det.baseline_distribution current_data features with
    | .error m => .raised m
    | .ok (featMap, scores) =>
      let overall : ℚ :=
        if scores.isEmpty then 0 else scores.sum / (scores.length : ℚ)
      let ds : Bool × Severity :=
        if det.critical_threshold ≤ overall then (true, .critical)
        else if det.warning_threshold ≤ overall then (true, .warning)
        else (false, .normal)
      .ok { n_samples := nRows current_data
            features := featMap
            overall_drift_score := overall
            drift_detected := ds.1
            severity := ds.2 }

/-- Arithmetic mean (`np.mean` / `pandas.Series.mean`); the empty-list case
(`NaN` in the source) is unreachable from every claim instance. -/
def listMean (xs : List ℚ) : ℚ := xs.sum / (xs.length : ℚ)

/-- Sample variance (`ddof = 1`).  The source stores its square root
(`pandas.Series.std()`); for `n ≤ 1` the source yields `NaN`, which no claim
constrains. -/
def sampleVar (xs : List ℚ) : ℚ :=
  if xs.length ≤ 1 then 0
  else ((xs.map (fun x => (x - listMean xs) ^ 2)).sum) / ((xs.length - 1 : ℕ) : ℚ)

/-- `pandas.Series.min()` over a nonempty column. -/
def listMin (xs : List ℚ) : ℚ :=
  match xs with
  | [] => 0
  | y :: ys => ys.foldl min y

/-- `pandas.Series.max()` over a nonempty column. -/
def listMax (xs : List ℚ) : ℚ :=
  match xs with
  | [] => 0
  | y :: ys => ys.foldl max y

/-- Ascending sort of a rational column. -/
def sortQ (xs : List ℚ) : List ℚ :=
  List.insertionSort (fun a b => a ≤ b) xs

/-- `pandas.Series.quantile(p)` with the default linear interpolation on the
sorted values (`median = quantile(0.5)`). -/
def quantileSorted (s : List ℚ) (p : ℚ) : ℚ :=
  match s with
  | [] => 0
  | _ :: _ =>
    let n := s.length
    let h : ℚ := p * ((n - 1 : ℕ) : ℚ)
    let i : ℕ := h.floor.toNat
    let lo := s.getD i 0
    let hi := s.getD (min (i + 1) (n - 1)) 0
    lo + (h - (i : ℚ)) * (hi - lo)

/-- `pandas.Series.value_counts()`: distinct values with their counts, sorted
by count descending; ties keep first-occurrence order (stable sort). -/
def value_counts (vs : List Val) : List (Val × ℕ) :=
  List.insertionSort (fun p q : Val × ℕ => q.2 ≤ p.2)
    ((firstUniques vs).map (fun v => (v, vs.count v)))

/-- `DriftDetector._compute_statistics`: per column, numeric-dtype columns
get the descriptive numeric stats, others get `nunique` and the ten most
frequent values. -/
def compute_statistics (data : Dataset) : List (String × FeatureStats) :=
  data.map (fun c =>
    (c.1,
      if is_numeric_dtype c.2 then
        let qs := c.2.filterMap numOnly?
        FeatureStats.numeric (listMean qs) (sampleVar qs) (listMin qs)
          (listMax qs) (quantileSorted (sortQ qs) (1/2))
          (quantileSorted (sortQ qs) (1/4)) (quantileSorted (sortQ qs) (3/4))
      else
        FeatureStats.categorical (firstUniques c.2).length
          ((value_counts c.2).take 10)))

/-- A model of `np.random.choice(values, 10000, replace=False)` is admissible
when, on every input longer than 10000, it returns 10000 of the input's
elements without replacement (a sub-permutation). -/
def SamplerOK (sampler : List Val → List Val) : Prop :=
  ∀ vs : List Val, 10000 < vs.length →
    (sampler vs).length = 10000 ∧ (sampler vs).Subperm vs

/-- One admissible sampler, used to instantiate witnesses. -/
def take_sampler (vs : List Val) : List Val := vs.take 10000

/-- `DriftDetector._compute_distribution`: numeric-dtype columns are stored
in full unless longer than 10000, in which case a 10000-element random
sample without replacement is stored; other (categorical) columns are stored
in full with no cap.  (`dropna()` is the identity here, see header.) -/
def compute_distribution (sampler : List Val → List Val) (data : Dataset) :
    List (String × Column) :=
  data.map (fun c =>
    (c.1,
      if is_numeric_dtype c.2 then
        (if 10000 < c.2.length then sampler c.2 else c.2)
      else c.2))

/-- The persisted baseline document (`timestamp` omitted, see header). -/
structure BaselineDoc where
  n_samples : ℕ
  stats : List (String × FeatureStats)
  distribution : List (String × Column)
deriving DecidableEq, Repr

/-- `DriftDetector.save_baseline`: compute stats and distribution, write the
document, and retain both as the in-memory baseline. -/
def save_baseline (sampler : List Val → List Val) (det : DriftState)
    (data : Dataset) : BaselineDoc × DriftState :=
  let stats := compute_statistics data
  let distribution := compute_distribution sampler data
  ({ n_samples := nRows data, stats := stats, distribution := distribution },
   { det with baseline_stats := stats, baseline_distribution := distribution })

/-- A successfully parsed JSON document as `load_baseline` sees it: a dict
whose `stats` and `distribution` keys may each be absent
(`data.get(key, {})`). -/
structure ParsedDoc where
  stats : Option (List (String × FeatureStats))
  distribution : Option (List (String × Column))
deriving DecidableEq, Repr

/-- What is at the baseline path: no file (`open` raises
`FileNotFoundError`), an unparseable or non-dict document (`json.load` or
`.get` raises), or a parsed dict. -/
inductive FileContents where
  | missing
  | invalid
  | parsed (d : ParsedDoc)
deriving DecidableEq, Repr

/-- Observable outcome of `load_baseline`: the success print, or the warning
print from the catch-all `except` clause. -/
inductive LoadOutcome where
  | loaded
  | warned
deriving DecidableEq, Repr

/-- `DriftDetector.load_baseline`: the whole body is wrapped in
`try/except Exception`; any failure (missing file, unparseable document) is
caught and reported only as a printed warning, leaving the in-memory baseline
unchanged; a parsed dict always loads, with absent `stats`/`distribution`
keys defaulting to empty dicts. -/
def load_baseline (det : DriftState) (file : FileContents) :
    DriftState × LoadOutcome :=
  match file with
  | .missing => (det, .warned)
  | .invalid => (det, .warned)
  | .parsed d =>
    ({ det with baseline_stats := d.stats.getD []
                baseline_distribution := d.distribution.getD [] },
     .loaded)

/-- Modelled from the spec's words (§4.1 aggregation, claim C2): the
arithmetic mean of the drift scores of exactly the features that were
actually tested, i.e. whose result is not the degraded `'none'` outcome of a
missing baseline sample.  Stated for comparison against the source's
aggregation. -/
def claimedOverallScore (r : DriftResult) : ℚ :=
  let tested := (r.features.filter
    (fun p => decide (p.2.test ≠ TestKind.none))).map (fun p => p.2.drift_score)
  if tested.isEmpty then 0 else tested.sum / (tested.length : ℚ)


deriving instance DecidableEq for Except

/-! ### Concrete instances used by witnesses and counterexamples -/

/-- A freshly constructed detector with the default thresholds
(`warning_threshold = 0.15`, `critical_threshold = 0.25`) and no baseline. -/
def dInit : DriftState :=
  { warning_threshold := 3/20, critical_threshold := 1/4,
    baseline_stats := [], baseline_distribution := [] }

/-- A detector with the default thresholds and a one-feature baseline. -/
def det0 : DriftState :=
  { warning_threshold := 3/20, critical_threshold := 1/4,
    baseline_stats := [("f", FeatureStats.categorical 1 [(Val.num 0, 1)])],
    baseline_distribution := [("f", [Val.num 0])] }

/-- A one-column current batch identical to `det0`'s baseline sample. -/
def ds0 : Dataset := [("f", [Val.num 0])]

/-- The result of `detect_drift det0 ds0 none`. -/
def r0 : DriftResult :=
  { n_samples := 1,
    features := [("f", ⟨TestKind.kolmogorov_smirnov, 0⟩)],
    overall_drift_score := 0, drift_detected := false,
    severity := Severity.normal }

/-- A detector whose stats know two features but whose stored samples cover
only feature `a`. -/
def detC2 : DriftState :=
  { warning_threshold := 3/20, critical_threshold := 1/4,
    baseline_stats := [("a", FeatureStats.categorical 1 [(Val.num 0, 1)]),
                       ("b", FeatureStats.categorical 1 [(Val.num 0, 1)])],
    baseline_distribution := [("a", [Val.num 0])] }

/-- A current batch containing both of `detC2`'s features. -/
def dsC2 : Dataset := [("a", [Val.num 1]), ("b", [Val.num 1])]

/-- The result of `detect_drift detC2 dsC2 none`: feature `a` scores 1.0 by
the KS test, feature `b` degrades to `'none'`/0.0, and both scores enter the
mean, giving 0.5. -/
def rC2 : DriftResult :=
  { n_samples := 1,
    features := [("a", ⟨TestKind.kolmogorov_smirnov, 1⟩),
                 ("b", ⟨TestKind.none, 0⟩)],
    overall_drift_score := 1/2, drift_detected := true,
    severity := Severity.critical }

/-- A dataset whose only column holds numeric *strings*: `object` dtype, so
`save_baseline` classifies it categorical, yet `_is_numeric` accepts its
values at detection time. -/
def D5 : Dataset := [("f", [Val.str "1", Val.str "2"])]

/-- The result of `detect_drift` on `[("f", ["3"])]` after saving `D5` as
the baseline: dispatched to Kolmogorov-Smirnov despite the categorical
save-time classification. -/
def rC5 : DriftResult :=
  { n_samples := 1,
    features := [("f", ⟨TestKind.kolmogorov_smirnov, 1⟩)],
    overall_drift_score := 1, drift_detected := true,
    severity := Severity.critical }

/-- A detector whose baseline sample for `f` is a string list while the
current batch for `f` is numeric: the dispatched KS test fails. -/
def detC8 : DriftState :=
  { warning_threshold := 3/20, critical_threshold := 1/4,
    baseline_stats := [("f", FeatureStats.categorical 1 [(Val.str "a", 1)]),
                       ("g", FeatureStats.numeric 0 0 0 0 0 0 0)],
    baseline_distribution := [("f", [Val.str "a"]), ("g", [Val.num 0])] }

/-- A current batch for `detC8` whose feature `g` would test cleanly. -/
def cdC8 : Dataset := [("f", [Val.num 1]), ("g", [Val.num 0])]

/-- A detector with `warning_threshold = 0`, allowed by the spec's `[0,1]`
threshold range. -/
def det9 : DriftState :=
  { warning_threshold := 0, critical_threshold := 1/4,
    baseline_stats := [("f", FeatureStats.numeric 0 0 0 0 0 0 0)],
    baseline_distribution := [("f", [Val.num 0])] }

/-- A dataset with one categorical column of 10001 values. -/
def D10 : Dataset := [("lang", List.replicate 10001 (Val.str "pt"))]

/-! ### Helper lemmas -/

lemma foldr_max_nonneg (l : List ℚ) : 0 ≤ l.foldr max 0 := by
  induction l with
  | nil => exact le_refl 0
  | cons x t ih => exact le_trans ih (le_max_right x _)

lemma foldr_max_le_one (l : List ℚ) (h : ∀ x ∈ l, x ≤ 1) : l.foldr max 0 ≤ 1 := by
  induction l with
  | nil => norm_num
  | cons x t ih =>
    simp only [List.foldr_cons]
    exact max_le (h x (by simp)) (ih fun y hy => h y (by simp [hy]))

lemma countLe_le_length {α : Type} [LinearOrder α] (xs : List α) (t : α) :
    countLe xs t ≤ xs.length :=
  List.length_filter_le _ _

lemma ecdfAt_nonneg {α : Type} [LinearOrder α] (xs : List α) (t : α) :
    0 ≤ ecdfAt xs t :=
  div_nonneg (Nat.cast_nonneg _) (Nat.cast_nonneg _)

lemma ecdfAt_le_one {α : Type} [LinearOrder α] (xs : List α) (t : α) :
    ecdfAt xs t ≤ 1 := by
  unfold ecdfAt
  rcases Nat.eq_zero_or_pos xs.length with h | h
  · have h0 : countLe xs t = 0 := Nat.le_zero.mp (h ▸ countLe_le_length xs t)
    simp [h0]
  · rw [div_le_one (by exact_mod_cast h)]
    exact_mod_cast countLe_le_length xs t

lemma ksStat_nonneg {α : Type} [LinearOrder α] (xs ys : List α) :
    0 ≤ ksStat xs ys :=
  foldr_max_nonneg _

lemma ksStat_le_one {α : Type} [LinearOrder α] (xs ys : List α) :
    ksStat xs ys ≤ 1 := by
  refine foldr_max_le_one _ ?_
  intro x hx
  simp only [List.mem_map] at hx
  obtain ⟨t, _, rfl⟩ := hx
  rw [abs_sub_le_iff]
  constructor
  · have h1 := ecdfAt_le_one xs t
    have h2 := ecdfAt_nonneg ys t
    linarith
  · have h1 := ecdfAt_le_one ys t
    have h2 := ecdfAt_nonneg xs t
    linarith

lemma test_numeric_drift_ok (cur base : List Val) (fr : FeatureDriftResult)
    (h : test_numeric_drift cur base = .ok fr) :
    fr.test = TestKind.kolmogorov_smirnov ∧ 0 ≤ fr.drift_score ∧ fr.drift_score ≤ 1 := by
  unfold test_numeric_drift at h
  split at h
  · injection h with h
    subst h
    exact ⟨rfl, ksStat_nonneg _ _, ksStat_le_one _ _⟩
  · split at h
    · injection h with h
      subst h
      exact ⟨rfl, ksStat_nonneg _ _, ksStat_le_one _ _⟩
    · exact Except.noConfusion h

lemma test_categorical_drift_props (cur base : List Val) :
    (test_categorical_drift cur base).test = TestKind.chi_square ∧
    0 ≤ (test_categorical_drift cur base).drift_score ∧
    (test_categorical_drift cur base).drift_score ≤ 1 := by
  simp only [test_categorical_drift]
  split
  · exact ⟨rfl, by norm_num, by norm_num⟩
  · refine ⟨rfl, ?_, ?_⟩
    · refine le_min ?_ zero_le_one
      refine div_nonneg ?_ (Nat.cast_nonneg _)
      refine List.sum_nonneg ?_
      intro x hx
      simp only [List.mem_map] at hx
      obtain ⟨p, _, rfl⟩ := hx
      exact div_nonneg (sq_nonneg _) (Nat.cast_nonneg _)
    · exact min_le_right _ _

lemma test_feature_drift_ok_props (bd : List (String × Column)) (cur : Column)
    (f : String) (fr : FeatureDriftResult)
    (h : test_feature_drift bd cur f = .ok fr) :
    (0 ≤ fr.drift_score ∧ fr.drift_score ≤ 1) ∧
    (fr.test = TestKind.none ↔ ((bd.lookup f).getD []).isEmpty = true) ∧
    (fr.test = TestKind.none → fr.drift_score = 0) ∧
    (((bd.lookup f).getD []).isEmpty = false →
      fr.test = (if is_numeric cur then TestKind.kolmogorov_smirnov
                 else TestKind.chi_square)) := by
  simp only [test_feature_drift] at h
  split at h
  · next hemp =>
    injection h with h
    subst h
    refine ⟨⟨le_refl 0, zero_le_one⟩, by simp [hemp], fun _ => rfl, ?_⟩
    intro hne
    rw [hemp] at hne
    exact absurd hne (by simp)
  · next hemp =>
    split at h
    · next hnum =>
      obtain ⟨ht, h0, h1⟩ := test_numeric_drift_ok _ _ _ h
      refine ⟨⟨h0, h1⟩, ?_, ?_, ?_⟩
      · rw [ht]
        simp [Bool.not_eq_true] at hemp
        simp [hemp]
      · rw [ht]; intro hc; exact absurd hc (by simp)
      · intro _; rw [ht, if_pos hnum]
    · next hnum =>
      injection h with h
      subst h
      obtain ⟨ht, h0, h1⟩ := test_categorical_drift_props cur ((bd.lookup f).getD [])
      refine ⟨⟨h0, h1⟩, ?_, ?_, ?_⟩
      · rw [ht]
        simp [Bool.not_eq_true] at hemp
        simp [hemp]
      · rw [ht]; intro hc; exact absurd hc (by simp)
      · intro _
        rw [ht, if_neg hnum]

lemma driftLoop_ok_scores (bd : List (String × Column)) (cd : Dataset)
    (fs : List String) (m : List (String × FeatureDriftResult)) (s : List ℚ)
    (h : driftLoop bd cd fs = .ok (m, s)) :
    s = m.map (fun p => p.2.drift_score) := by
  induction fs generalizing m s with
  | nil =>
    simp only [driftLoop] at h
    injection h with h
    injection h with h1 h2
    subst h1; subst h2
    rfl
  | cons g gs ih =>
    simp only [driftLoop] at h
    cases hlk : cd.lookup g with
    | none =>
      simp only [hlk] at h
      exact ih _ _ h
    | some col =>
      simp only [hlk] at h
      cases htf : test_feature_drift bd col g with
      | error e => simp only [htf] at h; exact Except.noConfusion h
      | ok fr =>
        simp only [htf] at h
        cases hrec : driftLoop bd cd gs with
        | error e => simp only [hrec] at h; exact Except.noConfusion h
        | ok p =>
          obtain ⟨m', s'⟩ := p
          simp only [hrec] at h
          injection h with h
          injection h with h1 h2
          subst h1; subst h2
          simp [ih _ _ hrec]

lemma driftLoop_ok_mem (bd : List (String × Column)) (cd : Dataset)
    (fs : List String) (m : List (String × FeatureDriftResult)) (s : List ℚ)
    (h : driftLoop bd cd fs = .ok (m, s)) :
    ∀ p ∈ m, ∃ col, cd.lookup p.1 = some col ∧
      test_feature_drift bd col p.1 = .ok p.2 := by
  induction fs generalizing m s with
  | nil =>
    simp only [driftLoop] at h
    injection h with h
    injection h with h1 h2
    subst h1
    intro p hp
    exact absurd hp (List.not_mem_nil p)
  | cons g gs ih =>
    simp only [driftLoop] at h
    cases hlk : cd.lookup g with
    | none =>
      simp only [hlk] at h
      exact ih _ _ h
    | some col =>
      simp only [hlk] at h
      cases htf : test_feature_drift bd col g with
      | error e => simp only [htf] at h; exact Except.noConfusion h
      | ok fr =>
        simp only [htf] at h
        cases hrec : driftLoop bd cd gs with
        | error e => simp only [hrec] at h; exact Except.noConfusion h
        | ok p =>
          obtain ⟨m', s'⟩ := p
          simp only [hrec] at h
          injection h with h
          injection h with h1 h2
          subst h1
          intro p hp
          rcases List.mem_cons.mp hp with hp | hp
          · subst hp
            exact ⟨col, hlk, htf⟩
          · exact ih _ _ hrec p hp

lemma driftLoop_filter_ne (bd : List (String × Column)) (cd : Dataset)
    (f : String) (h : cd.lookup f = Option.none) (fs : List String) :
    driftLoop bd cd (fs.filter (fun g => decide (g ≠ f))) = driftLoop bd cd fs := by
  induction fs with
  | nil => rfl
  | cons g gs ih =>
    by_cases hg : g = f
    · subst hg
      have hfalse : (decide (g ≠ g)) = false := by simp
      simp only [List.filter_cons, hfalse, Bool.false_eq_true, if_false]
      rw [ih]
      conv_rhs => rw [driftLoop]
      rw [h]
    · have htrue : (decide (g ≠ f)) = true := by simp [hg]
      simp only [List.filter_cons, htrue, if_true]
      rw [driftLoop, driftLoop, ih]

lemma driftLoop_empty_dataset (bd : List (String × Column)) (fs : List String) :
    driftLoop bd [] fs = .ok ([], []) := by
  induction fs with
  | nil => rfl
  | cons g gs ih =>
    rw [driftLoop]
    exact ih

lemma lookup_eq_none_of_keys_ne {β : Type} (m : List (String × β)) (f : String)
    (h : ∀ p ∈ m, p.1 ≠ f) : m.lookup f = Option.none := by
  induction m with
  | nil => rfl
  | cons p t ih =>
    have hne : (f == p.1) = false :=
      beq_eq_false_iff_ne.mpr (Ne.symm (h p (List.mem_cons_self p t)))
    simp only [List.lookup, hne]
    exact ih fun q hq => h q (List.mem_cons_of_mem p hq)

lemma severity_pair_cases (A B : Prop) [Decidable A] [Decidable B] :
    (if A then ((true : Bool), Severity.critical)
     else if B then ((true : Bool), Severity.warning)
     else ((false : Bool), Severity.normal)).2 =
      (if A then Severity.critical else if B then Severity.warning
       else Severity.normal) ∧
    (if A then ((true : Bool), Severity.critical)
     else if B then ((true : Bool), Severity.warning)
     else ((false : Bool), Severity.normal)).1 =
      (if A then true else if B then true else false) := by
  by_cases hA : A <;> by_cases hB : B <;> simp [hA, hB]

lemma detect_drift_ok_inv (det : DriftState) (cd : Dataset)
    (fs? : Option (List String)) (r : DriftResult)
    (h : detect_drift det cd fs? = .ok r) :
    ∃ m s, driftLoop det.baseline_distribution cd
        (fs?.getD (det.baseline_stats.map Prod.fst)) = .ok (m, s) ∧
      r.n_samples = nRows cd ∧ r.features = m ∧
      r.overall_drift_score = (if s.isEmpty then 0 else s.sum / (s.length : ℚ)) ∧
      r.severity = (if det.critical_threshold ≤ r.overall_drift_score then Severity.critical
                    else if det.warning_threshold ≤ r.overall_drift_score then Severity.warning
                    else Severity.normal) ∧
      r.drift_detected = (if det.critical_threshold ≤ r.overall_drift_score then true
                          else if det.warning_threshold ≤ r.overall_drift_score then true
                          else false) := by
  simp only [detect_drift] at h
  split at h
  · exact DriftOutcome.noConfusion h
  · cases hdl : driftLoop det.baseline_distribution cd
        (fs?.getD (det.baseline_stats.map Prod.fst)) with
    | error e =>
      simp only [hdl] at h
      exact DriftOutcome.noConfusion h
    | ok p =>
      obtain ⟨m, s⟩ := p
      simp only [hdl] at h
      injection h with h
      subst h
      exact ⟨m, s, rfl, rfl, rfl, rfl, (severity_pair_cases _ _).1,
        (severity_pair_cases _ _).2⟩

/-! ### Claim theorems -/

/-- Claim C1: for every loaded baseline and current dataset, `detect_drift`
classifies severity from the overall score with inclusive thresholds —
Critical when `overall_score >= critical_threshold`, else Warning when
`overall_score >= warning_threshold`, else Normal — and `drift_detected` is
true exactly when severity is Warning or Critical. -/
theorem C1_severity_classification (det : DriftState) (cd : Dataset)
    (fs? : Option (List String)) (r : DriftResult)
    (h : detect_drift det cd fs? = DriftOutcome.ok r) :
    r.severity =
      (if det.critical_threshold ≤ r.overall_drift_score then Severity.critical
       else if det.warning_threshold ≤ r.overall_drift_score then Severity.warning
       else Severity.normal) ∧
    (r.drift_detected = true ↔ r.severity ≠ Severity.normal) := by
  obtain ⟨m, s, _, _, _, _, hsev, hdet⟩ := detect_drift_ok_inv det cd fs? r h
  refine ⟨hsev, ?_⟩
  rw [hdet, hsev]
  by_cases h1 : det.critical_threshold ≤ r.overall_drift_score <;>
    by_cases h2 : det.warning_threshold ≤ r.overall_drift_score <;>
    simp [h1, h2]

/-- Claim C1 witness: the classification read off a concrete
`detect_drift` call. -/
theorem C1_witness :
    r0.severity =
      (if det0.critical_threshold ≤ r0.overall_drift_score then Severity.critical
       else if det0.warning_threshold ≤ r0.overall_drift_score then Severity.warning
       else Severity.normal) ∧
    (r0.drift_detected = true ↔ r0.severity ≠ Severity.normal) :=
  C1_severity_classification det0 ds0 Option.none r0 (by with_unfolding_all decide)

/-- Claim C2 counterexample: the claim says a feature whose baseline sample
is missing contributes neither to the tested set nor to the denominator of
the average, but the code appends its degraded 0.0 score to the score list:
for `detC2`/`dsC2` the code returns `overall_score = 0.5` while the mean over
actually tested features is `1.0`. -/
theorem C2_counterexample :
    detect_drift detC2 dsC2 Option.none = DriftOutcome.ok rC2 ∧
    claimedOverallScore rC2 = 1 ∧ rC2.overall_drift_score = 1/2 ∧
    rC2.overall_drift_score ≠ claimedOverallScore rC2 := by
  refine ⟨by with_unfolding_all decide, by with_unfolding_all decide,
    by with_unfolding_all decide, by with_unfolding_all decide⟩

/-- Claim C2 (amended): `overall_score` equals the arithmetic mean of the
drift scores of *all* requested features present in the current dataset —
including those whose missing baseline sample degraded them to 0.0, which do
enter the per-feature map and the denominator (0.0 when no feature was
scored). -/
theorem C2_overall_mean (det : DriftState) (cd : Dataset)
    (fs? : Option (List String)) (r : DriftResult)
    (h : detect_drift det cd fs? = DriftOutcome.ok r) :
    r.overall_drift_score =
      (if r.features.isEmpty then 0
       else ((r.features.map (fun p => p.2.drift_score)).sum) /
            (r.features.length : ℚ)) := by
  obtain ⟨m, s, hdl, _, hfeat, hover, _, _⟩ := detect_drift_ok_inv det cd fs? r h
  have hs := driftLoop_ok_scores _ _ _ _ _ hdl
  rw [hover, hs, hfeat]
  cases m with
  | nil => simp
  | cons p t => simp [List.length_map]

/-- Claim C2 witness (for the amended statement): the mean equation at a
concrete `detect_drift` call. -/
theorem C2_witness :
    r0.overall_drift_score =
      (if r0.features.isEmpty then 0
       else ((r0.features.map (fun p => p.2.drift_score)).sum) /
            (r0.features.length : ℚ)) :=
  C2_overall_mean det0 ds0 Option.none r0 (by with_unfolding_all decide)

/-- Claim C3: a requested feature absent from the current dataset's columns
is skipped entirely — removing it from the requested list does not change the
result at all, and it never appears in the returned per-feature map. -/
theorem C3_missing_feature_skipped (det : DriftState) (cd : Dataset)
    (fs : List String) (f : String) (h : cd.lookup f = Option.none) :
    detect_drift det cd (some (fs.filter (fun g => decide (g ≠ f)))) =
      detect_drift det cd (some fs) ∧
    ∀ r, detect_drift det cd (some fs) = DriftOutcome.ok r →
      r.features.lookup f = Option.none := by
  constructor
  · simp only [detect_drift, Option.getD_some]
    rw [driftLoop_filter_ne _ _ _ h]
  · intro r hr
    obtain ⟨m, s, hdl, _, hfeat, _, _, _⟩ := detect_drift_ok_inv _ _ _ _ hr
    have hmem := driftLoop_ok_mem _ _ _ _ _ hdl
    rw [hfeat]
    refine lookup_eq_none_of_keys_ne _ _ ?_
    intro p hp hpf
    obtain ⟨col, hcol, _⟩ := hmem p hp
    rw [hpf, h] at hcol
    exact Option.noConfusion hcol

/-- Claim C3 witness: requesting the absent feature `g` gives the same
result as not requesting it. -/
theorem C3_witness :
    detect_drift det0 ds0
        (some (["f", "g"].filter (fun g => decide (g ≠ "g")))) =
      detect_drift det0 ds0 (some ["f", "g"]) :=
  (C3_missing_feature_skipped det0 ds0 ["f", "g"] "g"
    (by with_unfolding_all decide)).1

/-- Claim C4: every drift score in the per-feature map of a successful
`detect_drift` call lies in `[0, 1]`: the KS statistic is bounded by
construction, the chi-square statistic is divided by the combined count and
clamped at 1.0, and the degraded missing-baseline score is 0.0. -/
theorem C4_drift_score_bounded (det : DriftState) (cd : Dataset)
    (fs? : Option (List String)) (r : DriftResult)
    (h : detect_drift det cd fs? = DriftOutcome.ok r) :
    ∀ p ∈ r.features, 0 ≤ p.2.drift_score ∧ p.2.drift_score ≤ 1 := by
  obtain ⟨m, s, hdl, _, hfeat, _, _, _⟩ := detect_drift_ok_inv det cd fs? r h
  have hmem := driftLoop_ok_mem _ _ _ _ _ hdl
  rw [hfeat]
  intro p hp
  obtain ⟨col, _, htf⟩ := hmem p hp
  exact (test_feature_drift_ok_props _ _ _ _ htf).1

/-- Claim C4 witness: the bound at a concrete tested feature. -/
theorem C4_witness :
    0 ≤ ("f", FeatureDriftResult.mk TestKind.kolmogorov_smirnov 0).2.drift_score ∧
    ("f", FeatureDriftResult.mk TestKind.kolmogorov_smirnov 0).2.drift_score ≤ 1 :=
  C4_drift_score_bounded det0 ds0 Option.none r0 (by with_unfolding_all decide)
    ("f", FeatureDriftResult.mk TestKind.kolmogorov_smirnov 0)
    (by with_unfolding_all decide)

/-- Claim C5 counterexample: the claim says the test is chosen by the
feature's classification as determined at baseline-save time; but after
saving a baseline whose feature `f` was classified categorical (numeric
strings, `object` dtype), `detect_drift` on a numeric-string current batch
dispatches the Kolmogorov-Smirnov test — the classification is re-inferred
from the current values. -/
theorem C5_counterexample :
    (save_baseline take_sampler dInit D5).2.baseline_stats =
      [("f", FeatureStats.categorical 2 [(Val.str "1", 1), (Val.str "2", 1)])] ∧
    detect_drift (save_baseline take_sampler dInit D5).2
        [("f", [Val.str "3"])] Option.none = DriftOutcome.ok rC5 ∧
    rC5.features =
      [("f", FeatureDriftResult.mk TestKind.kolmogorov_smirnov 1)] := by
  refine ⟨by with_unfolding_all decide, by with_unfolding_all decide, rfl⟩

/-- Claim C5 (amended): for a feature with a stored baseline sample, the
test is chosen by re-running the numeric-coercion check `_is_numeric` on the
*current batch's* values — Kolmogorov-Smirnov when they all coerce to float,
chi-square otherwise — independently of the baseline-save-time
classification. -/
theorem C5_dispatch_by_current_batch (bd : List (String × Column))
    (col : Column) (f : String) (fr : FeatureDriftResult)
    (hne : ((bd.lookup f).getD []).isEmpty = false)
    (h : test_feature_drift bd col f = .ok fr) :
    fr.test = (if is_numeric col then TestKind.kolmogorov_smirnov
               else TestKind.chi_square) :=
  (test_feature_drift_ok_props bd col f fr h).2.2.2 hne

/-- Claim C5 witness (for the amended statement): dispatch at a concrete
feature test. -/
theorem C5_witness :
    (FeatureDriftResult.mk TestKind.kolmogorov_smirnov 1).test =
      (if is_numeric [Val.num 1] then TestKind.kolmogorov_smirnov
       else TestKind.chi_square) :=
  C5_dispatch_by_current_batch [("f", [Val.num 0])] [Val.num 1] "f"
    (FeatureDriftResult.mk TestKind.kolmogorov_smirnov 1)
    (by with_unfolding_all decide) (by with_unfolding_all decide)

/-- Claim C6: calling `detect_drift` with no baseline loaded or saved (an
empty `baseline_stats` dict) returns the error-shaped result immediately and
never computes drift scores. -/
theorem C6_no_baseline_error (det : DriftState) (cd : Dataset)
    (fs? : Option (List String)) (h : det.baseline_stats = []) :
    detect_drift det cd fs? =
      DriftOutcome.errorResult
        "Baseline não carregado. Execute save_baseline() primeiro." := by
  simp [detect_drift, h]

/-- Claim C6 witness: a freshly constructed detector on a concrete batch. -/
theorem C6_witness :
    detect_drift dInit ds0 Option.none =
      DriftOutcome.errorResult
        "Baseline não carregado. Execute save_baseline() primeiro." :=
  C6_no_baseline_error dInit ds0 Option.none rfl

/-- Claim C7 counterexample: the claim says `load_baseline` fails with
`BaselineNotFoundError` for a missing path and `BaselineCorruptError` for a
document missing required fields; but the code accepts a parsed document with
both required fields absent as a *success* (defaulting them to empty dicts),
and reports a missing file and an unparseable file with one and the same
caught-warning outcome, surfacing no error kind to the caller. -/
theorem C7_counterexample :
    load_baseline det0 (FileContents.parsed ⟨Option.none, Option.none⟩) =
      ({ det0 with baseline_stats := [], baseline_distribution := [] },
       LoadOutcome.loaded) ∧
    (load_baseline det0 FileContents.missing).2 = LoadOutcome.warned ∧
    (load_baseline det0 FileContents.invalid).2 = LoadOutcome.warned ∧
    (load_baseline det0 FileContents.missing).2 =
      (load_baseline det0 FileContents.invalid).2 := by
  exact ⟨rfl, rfl, rfl, rfl⟩

/-- Claim C7 (amended): `load_baseline` surfaces no distinct error kinds:
any failure (missing path, unparseable document) is caught and reported only
as a printed warning with the in-memory baseline left unchanged (never
partially loaded), while any parsed document — even one missing the required
`stats`/`distribution` fields — loads successfully with absent fields
defaulting to empty maps. -/
theorem C7_load_baseline_no_error_kinds (det : DriftState)
    (file : FileContents) :
    ((load_baseline det file).2 = LoadOutcome.warned →
      (load_baseline det file).1 = det) ∧
    (∀ d, file = FileContents.parsed d →
      (load_baseline det file).2 = LoadOutcome.loaded ∧
      (load_baseline det file).1.baseline_stats = d.stats.getD [] ∧
      (load_baseline det file).1.baseline_distribution =
        d.distribution.getD []) := by
  cases file with
  | missing => exact ⟨fun _ => rfl, fun d hd => FileContents.noConfusion hd⟩
  | invalid => exact ⟨fun _ => rfl, fun d hd => FileContents.noConfusion hd⟩
  | parsed d0 =>
    refine ⟨fun hc => absurd hc (by simp [load_baseline]), fun d hd => ?_⟩
    injection hd with hd
    subst hd
    exact ⟨rfl, rfl, rfl⟩

/-- Claim C7 witness (for the amended statement): a missing file leaves the
detector unchanged; a parsed empty document loads as a success. -/
theorem C7_witness :
    (load_baseline det0 FileContents.missing).1 = det0 ∧
    (load_baseline det0
      (FileContents.parsed ⟨Option.none, Option.none⟩)).2 =
      LoadOutcome.loaded := by
  constructor
  · exact (C7_load_baseline_no_error_kinds det0 FileContents.missing).1 rfl
  · exact ((C7_load_baseline_no_error_kinds det0
      (FileContents.parsed ⟨Option.none, Option.none⟩)).2
      ⟨Option.none, Option.none⟩ rfl).1

/-- Claim C8 counterexample: the claim says a feature whose values cannot be
processed by the dispatched test degrades to `test = None, drift_score = 0`
without aborting; but when feature `f`'s numeric current batch meets a
string baseline sample, the uncaught comparison error aborts the whole
`detect_drift` call, discarding feature `g`'s result as well. -/
theorem C8_counterexample :
    detect_drift detC8 cdC8 Option.none =
      DriftOutcome.raised "TypeError: unordered comparison of str and float" := by
  with_unfolding_all decide

/-- Claim C8 (amended): in a successful `detect_drift` result, the degraded
`test = 'none'`, `drift_score = 0.0` outcome occurs for exactly the features
whose baseline has no stored sample; a per-feature test failure is not
caught and instead propagates out of `detect_drift` (see the
counterexample). -/
theorem C8_degrade_only_missing_baseline (det : DriftState) (cd : Dataset)
    (fs? : Option (List String)) (r : DriftResult)
    (h : detect_drift det cd fs? = DriftOutcome.ok r) :
    ∀ f fr, (f, fr) ∈ r.features →
      ((fr.test = TestKind.none ↔
        (det.baseline_distribution.lookup f).getD [] = ([] : Column)) ∧
       (fr.test = TestKind.none → fr.drift_score = 0)) := by
  obtain ⟨m, s, hdl, _, hfeat, _, _, _⟩ := detect_drift_ok_inv det cd fs? r h
  have hmem := driftLoop_ok_mem _ _ _ _ _ hdl
  rw [hfeat]
  intro f fr hp
  obtain ⟨col, _, htf⟩ := hmem (f, fr) hp
  obtain ⟨_, hiff, hzero, _⟩ := test_feature_drift_ok_props _ _ _ _ htf
  exact ⟨by rw [hiff]; exact List.isEmpty_iff, hzero⟩

/-- Claim C8 witness (for the amended statement): at a concrete result, the
tested feature's kind is not `'none'` and its baseline sample is
nonempty. -/
theorem C8_witness :
    ((FeatureDriftResult.mk TestKind.kolmogorov_smirnov 0).test =
        TestKind.none ↔
      (det0.baseline_distribution.lookup "f").getD [] = ([] : Column)) ∧
    ((FeatureDriftResult.mk TestKind.kolmogorov_smirnov 0).test =
        TestKind.none →
      (FeatureDriftResult.mk TestKind.kolmogorov_smirnov 0).drift_score = 0) :=
  C8_degrade_only_missing_baseline det0 ds0 Option.none r0
    (by with_unfolding_all decide) "f"
    (FeatureDriftResult.mk TestKind.kolmogorov_smirnov 0)
    (by with_unfolding_all decide)

/-- Claim C9 counterexample: the claim says an empty current dataset always
yields severity Normal and `drift_detected = false`; but with
`warning_threshold = 0` — inside the spec's allowed `[0,1]` range — the
empty batch's 0.0 overall score classifies as Warning with
`drift_detected = true` by the inclusive comparison. -/
theorem C9_counterexample :
    detect_drift det9 ([] : Dataset) Option.none =
      DriftOutcome.ok { n_samples := 0, features := [],
                        overall_drift_score := 0, drift_detected := true,
                        severity := Severity.warning } := by
  with_unfolding_all decide

/-- Claim C9 (amended): with a loaded baseline and strictly positive
thresholds (as with the defaults 0.15/0.25), `detect_drift` on a completely
empty current dataset succeeds with an empty per-feature map,
`overall_score = 0.0` by convention, severity Normal and
`drift_detected = false`; a non-positive threshold instead classifies the
0.0 score as Warning/Critical by inclusivity. -/
theorem C9_empty_batch (det : DriftState) (fs? : Option (List String))
    (hb : det.baseline_stats ≠ [])
    (hw : 0 < det.warning_threshold) (hc : 0 < det.critical_threshold) :
    detect_drift det ([] : Dataset) fs? =
      DriftOutcome.ok { n_samples := 0, features := [],
                        overall_drift_score := 0, drift_detected := false,
                        severity := Severity.normal } := by
  have hbe : det.baseline_stats.isEmpty = false := by
    cases hstat : det.baseline_stats with
    | nil => exact absurd hstat hb
    | cons p t => rfl
  simp only [detect_drift, hbe, Bool.false_eq_true, if_false,
    driftLoop_empty_dataset]
  simp [nRows, not_le.mpr hw, not_le.mpr hc]

/-- Claim C9 witness (for the amended statement): the empty batch with the
default thresholds. -/
theorem C9_witness :
    detect_drift det0 ([] : Dataset) Option.none =
      DriftOutcome.ok { n_samples := 0, features := [],
                        overall_drift_score := 0, drift_detected := false,
                        severity := Severity.normal } :=
  C9_empty_batch det0 Option.none (by with_unfolding_all decide)
    (by with_unfolding_all decide) (by with_unfolding_all decide)

lemma take_sampler_ok : SamplerOK take_sampler := by
  intro vs h
  refine ⟨?_, (List.take_sublist _ _).subperm⟩
  simp only [take_sampler, List.length_take]
  omega

lemma is_numeric_dtype_replicate_str (n : ℕ) (s : String) (hn : n ≠ 0) :
    is_numeric_dtype (List.replicate n (Val.str s)) = false := by
  cases n with
  | zero => exact absurd rfl hn
  | succ k => simp [is_numeric_dtype, List.replicate_succ]

/-- Claim C10 counterexample: the claim says every feature's stored sample
is capped at 10,000 values; but the cap is applied only to numeric-dtype
columns, and saving a baseline over a categorical column of 10,001 values
stores all 10,001 of them. -/
theorem C10_counterexample :
    (save_baseline take_sampler dInit D10).1.distribution.lookup "lang" =
      some (List.replicate 10001 (Val.str "pt")) ∧
    (List.replicate 10001 (Val.str "pt")).length = 10001 ∧
    ¬(10001 ≤ 10000) := by
  refine ⟨?_, by rw [List.length_replicate], by norm_num⟩
  have hdt : is_numeric_dtype (List.replicate 10001 (Val.str "pt")) = false :=
    is_numeric_dtype_replicate_str 10001 "pt" (by norm_num)
  have hmap : (save_baseline take_sampler dInit D10).1.distribution =
      [("lang", List.replicate 10001 (Val.str "pt"))] := by
    show compute_distribution take_sampler D10 = _
    unfold compute_distribution D10
    simp only [List.map_cons, List.map_nil, hdt, Bool.false_eq_true, if_false]
  rw [hmap]
  simp only [List.lookup, beq_self_eq_true]

/-- Claim C10 (amended): the 10,000-sample cap of `save_baseline` applies
only to numeric-dtype features — such a feature's stored sample has length
at most 10,000, is drawn from the column's values without replacement when
the column exceeds 10,000 values, and is the full column otherwise — while a
non-numeric (categorical) feature's stored sample is always the full,
uncapped column. -/
theorem C10_cap_numeric_only (sampler : List Val → List Val)
    (hS : SamplerOK sampler) (data : Dataset) (nm : String) (col : Column)
    (hmem : (nm, col) ∈ data) :
    ∃ stored, (nm, stored) ∈ compute_distribution sampler data ∧
      (is_numeric_dtype col = true →
        stored.length ≤ 10000 ∧ stored.Subperm col ∧
        (col.length ≤ 10000 → stored = col)) ∧
      (is_numeric_dtype col = false → stored = col) := by
  refine ⟨if is_numeric_dtype col then
            (if 10000 < col.length then sampler col else col) else col,
          ?_, ?_, ?_⟩
  · exact List.mem_map.mpr ⟨(nm, col), hmem, rfl⟩
  · intro hnum
    rw [if_pos hnum]
    by_cases hlen : 10000 < col.length
    · rw [if_pos hlen]
      obtain ⟨hl, hsub⟩ := hS col hlen
      exact ⟨le_of_eq hl, hsub, fun hle => absurd hlen (not_lt.mpr hle)⟩
    · rw [if_neg hlen]
      exact ⟨not_lt.mp hlen, List.Subperm.refl col, fun _ => rfl⟩
  · intro hnum
    rw [if_neg (by simp [hnum])]

/-- Claim C10 witness (for the amended statement): a one-value numeric
column is stored in full by an admissible sampler. -/
theorem C10_witness :
    ∃ stored, ("n", stored) ∈
        compute_distribution take_sampler [("n", [Val.num 1])] ∧
      (is_numeric_dtype [Val.num 1] = true →
        stored.length ≤ 10000 ∧ stored.Subperm [Val.num 1] ∧
        ([Val.num 1].length ≤ 10000 → stored = [Val.num 1])) ∧
      (is_numeric_dtype [Val.num 1] = false → stored = [Val.num 1]) :=
  C10_cap_numeric_only take_sampler take_sampler_ok [("n", [Val.num 1])]
    "n" [Val.num 1] (by with_unfolding_all decide)
